import Mathlib

/-
Shallow embedding of the jaeger `storagecleaner` extension
(cmd/jaeger/internal/integration/storagecleaner/extension.go):
the storage cleaner resolves a named storage backend at start, serves
`POST /purge`, and shuts down its HTTP server on request.
-/

namespace Storagecleaner

/-- Go error values: either a base error (`errors.New` / `fmt.Errorf`
without `%w`) or a wrapping error produced by `fmt.Errorf("...: %w", err)`,
holding the textual part and the wrapped cause. -/
inductive GoError where
  | base (msg : String)
  | wrap (pre : String) (cause : GoError)
  deriving DecidableEq, Repr

/-- Go `Error()`: a wrapping error's message is its textual part followed by
the wrapped error's message. -/
def GoError.message : GoError → String
  | .base m => m
  | .wrap p c => p ++ c.message

/-- Go `errors.Is`: compares against the target, unwrapping the chain. -/
def GoError.is : GoError → GoError → Bool
  | e@(.base _), t => e == t
  | e@(.wrap _ c), t => e == t || c.is t

/-- The sentinel `http.ErrServerClosed` returned by `ListenAndServe` after a
graceful `Shutdown`. -/
def httpErrServerClosed : GoError := .base "http: Server closed"

/-- A resolved storage factory as the cleaner sees it: it may or may not
implement the `storage.Purger` interface; when it does, calling `Purge()`
either succeeds (`none`) or fails with an error. -/
structure StorageFactory where
  purger : Option (Unit → Option GoError)

/-- The `Config` of the storage cleaner extension, as used by `extension.go`:
`TraceStorage` names the backend to purge, `Port` the listen port. -/
structure Config where
  traceStorage : String
  port : String
  deriving DecidableEq, Repr

/-- The host's registry of storage extensions: maps a backend name to the
factory registered under it, when there is one. -/
structure Host where
  registry : String → Option StorageFactory

/-- Constant `Port = "9231"`. -/
def Port : String := "9231"

/-- Constant `URL = "/purge"`. -/
def URL : String := "/purge"

/-- The `*http.Server` built by `Start`: its address together with the
environment captured by the registered `POST /purge` handler closure (the
resolved factory and the configured backend name). -/
structure HTTPServer where
  addr : String
  factory : StorageFactory
  traceStorage : String

/-- The `storageCleaner` struct: configuration, the optional server handle
(`nil` pointer modelled as `none`), and the telemetry settings, modelled as
an opaque handle identifying the host status reporter. -/
structure StorageCleaner where
  config : Config
  server : Option HTTPServer
  settings : Nat

/-- `newStorageCleaner`: stores config and telemetry settings; the `server`
field is left at its zero value (`nil`). -/
def newStorageCleaner (config : Config) (telemetrySettings : Nat) : StorageCleaner :=
  { config := config, server := none, settings := telemetrySettings }

/-- Modelled from the spec: `jaegerstorage.GetStorageFactory` lives in a
package not included in the provided sources. Per the spec, the host offers
a synchronous resolver from a backend name to a live backend instance that
fails when no backend is registered under that name. -/
def GetStorageFactory (name : String) (host : Host) : Except GoError StorageFactory :=
  match host.registry name with
  | some f => .ok f
  | none => .error (.base ("no storage extension registered for name " ++ name))

/-- The `purgeStorage` closure defined inside `Start`: type-asserts the
resolved factory to `storage.Purger`; when the assertion fails it returns
the capability error, otherwise it calls `Purge()` and wraps any failure. -/
def purgeStorage (storageFactory : StorageFactory) (traceStorage : String) : Option GoError :=
  match storageFactory.purger with
  | none => some (.base ("storage " ++ traceStorage ++ " does not implement Purger interface"))
  | some purge =>
    match purge () with
    | some err => some (.wrap "error purging storage: " err)
    | none => none

/-- An HTTP response: status code and body. -/
structure HTTPResponse where
  status : Nat
  body : String
  deriving DecidableEq, Repr

/-- An inbound HTTP request: method and path. -/
structure HTTPRequest where
  method : String
  path : String
  deriving DecidableEq, Repr

/-- The `purgeHandler` closure defined inside `Start`: on a purge failure,
`http.Error` writes the error text followed by a newline with status 500;
on success it writes status 200 and the fixed confirmation body. -/
def purgeHandler (storageFactory : StorageFactory) (traceStorage : String) : HTTPResponse :=
  match purgeStorage storageFactory traceStorage with
  | some err => { status := 500, body := err.message ++ "\n" }
  | none => { status := 200, body := "Purge request processed successfully" }

/-- The `mux` router built in `Start`: a single route, `URL`, restricted to
`POST`. A request to another path gets mux's 404 page; a request to the
route with another method gets mux's default method-not-allowed response. -/
def route (srv : HTTPServer) (req : HTTPRequest) : HTTPResponse :=
  if req.path = URL then
    if req.method = "POST" then purgeHandler srv.factory srv.traceStorage
    else { status := 405, body := "Method Not Allowed\n" }
  else { status := 404, body := "404 page not found\n" }

/-- `Start`: resolves the storage factory by the configured name; on a
resolution failure it returns the wrapped error and leaves the receiver
untouched; otherwise it installs the server (whose handler closure captures
the resolved factory and the configured name) and returns success. The
spawned listener goroutine is modelled separately by `listenerGoroutine`. -/
def Start (c : StorageCleaner) (host : Host) : StorageCleaner × Option GoError :=
  match GetStorageFactory c.config.traceStorage host with
  | .error err =>
    (c, some (.wrap ("cannot find storage factory '" ++ c.config.traceStorage ++ "': ") err))
  | .ok storageFactory =>
    ({ c with
       server := some { addr := ":" ++ c.config.port
                      , factory := storageFactory
                      , traceStorage := c.config.traceStorage } },
     none)

/-- The goroutine spawned by `Start`: given what `ListenAndServe` returned
(`none` modelling that it has not returned), it reports a fatal error event
to the host unless the error is `http.ErrServerClosed`. The result is the
event reported, or `none` when nothing is reported. -/
def listenerGoroutine (listenResult : Option GoError) : Option GoError :=
  match listenResult with
  | none => none
  | some err =>
    if err.is httpErrServerClosed then none
    else some (.wrap "error starting cleaner server: " err)

/-- `Shutdown`: a no-op when no server was installed; otherwise it delegates
to `http.Server.Shutdown` — whose outcome is environmental and passed in as
`serverShutdownResult` — and wraps a failure. The receiver's fields are not
modified in any case. -/
def Shutdown (c : StorageCleaner) (serverShutdownResult : Option GoError) :
    StorageCleaner × Option GoError :=
  match c.server with
  | none => (c, none)
  | some _ =>
    match serverShutdownResult with
    | some err => (c, some (.wrap "error shutting down cleaner server: " err))
    | none => (c, none)

/-- Serving one inbound request: only possible while a server is installed
(a `none` response models a refused connection). The handler writes only to
the response writer, so the service state component is returned as is. -/
def serveRequest (c : StorageCleaner) (req : HTTPRequest) :
    StorageCleaner × Option HTTPResponse :=
  match c.server with
  | none => (c, none)
  | some srv => (c, some (route srv req))

/-! Concrete instances used by witnesses and counterexamples. -/

/-- A factory that does not implement `storage.Purger`. -/
def noPurgeFactory : StorageFactory := { purger := none }

/-- A factory whose `Purge()` succeeds. -/
def okFactory : StorageFactory := { purger := some (fun _ => none) }

/-- A factory whose `Purge()` fails with a concrete error. -/
def failFactory : StorageFactory := { purger := some (fun _ => some (.base "disk full")) }

/-- A concrete configuration naming the backend `memstore`. -/
def cfg0 : Config := { traceStorage := "memstore", port := Port }

/-- A host whose registry holds `noPurgeFactory` under `memstore`. -/
def host0 : Host :=
  { registry := fun name => if name = "memstore" then some noPurgeFactory else none }

/-- A host whose registry holds `okFactory` under `memstore`. -/
def host1 : Host :=
  { registry := fun name => if name = "memstore" then some okFactory else none }

/-- A freshly constructed cleaner over `cfg0`. -/
def cleaner0 : StorageCleaner := newStorageCleaner cfg0 0

/-- A running cleaner whose handler captured `okFactory`. -/
def cleanerOk : StorageCleaner :=
  { config := cfg0
  , server := some { addr := ":9231", factory := okFactory, traceStorage := "memstore" }
  , settings := 0 }

/-- A running cleaner whose handler captured `failFactory`. -/
def cleanerFail : StorageCleaner :=
  { config := cfg0
  , server := some { addr := ":9231", factory := failFactory, traceStorage := "memstore" }
  , settings := 0 }

/-! Claim C1. -/

/-- Claim C1, counterexample: with the backend name registered to a factory
that does not implement the purge capability (`noPurgeFactory`), `Start`
does not fail with a capability error — it returns success and installs the
listener, refuting the claim that the capability check happens in `start`
before the listener is bound. -/
theorem start_skips_capability_check :
    (Start cleaner0 host0).2 = none ∧
    ((Start cleaner0 host0).1).server.isSome = true := by
  exact ⟨rfl, rfl⟩

/-- Claim C1, amended: `start` performs no capability check. Whenever the
backend name resolves, `start` succeeds and installs the listener even if
the resolved factory lacks the purge capability; the check is made by
`purgeStorage` on each request instead, which then fails with the
capability error. -/
theorem start_succeeds_without_purger (c : StorageCleaner) (host : Host)
    (f : StorageFactory)
    (hres : host.registry c.config.traceStorage = some f)
    (hnop : f.purger = none) :
    (Start c host).2 = none ∧
    ((Start c host).1).server.isSome = true ∧
    purgeStorage f c.config.traceStorage =
      some (.base ("storage " ++ c.config.traceStorage ++
        " does not implement Purger interface")) := by
  refine ⟨?_, ?_, ?_⟩ <;>
    simp [Start, GetStorageFactory, hres, purgeStorage, hnop]

/-- Claim C1, witness for the amended theorem at `cleaner0` and `host0`. -/
theorem start_succeeds_without_purger_witness :
    (Start cleaner0 host0).2 = none ∧
    ((Start cleaner0 host0).1).server.isSome = true ∧
    purgeStorage noPurgeFactory cleaner0.config.traceStorage =
      some (.base ("storage " ++ cleaner0.config.traceStorage ++
        " does not implement Purger interface")) :=
  start_succeeds_without_purger cleaner0 host0 noPurgeFactory rfl rfl

/-! Claim C2. -/

/-- Claim C2: while the service is running, if the captured backend's purge
operation succeeds then a `POST /purge` request is answered with status 200
and body exactly `"Purge request processed successfully"`. -/
theorem purge_success_response (c : StorageCleaner) (srv : HTTPServer)
    (p : Unit → Option GoError)
    (hs : c.server = some srv)
    (hp : srv.factory.purger = some p)
    (hok : p () = none) :
    serveRequest c { method := "POST", path := "/purge" } =
      (c, some { status := 200, body := "Purge request processed successfully" }) := by
  simp [serveRequest, hs, route, URL, purgeHandler, purgeStorage, hp, hok]

/-- Claim C2, witness at a running cleaner whose purge succeeds. -/
theorem purge_success_response_witness :
    serveRequest cleanerOk { method := "POST", path := "/purge" } =
      (cleanerOk, some { status := 200, body := "Purge request processed successfully" }) :=
  purge_success_response cleanerOk
    { addr := ":9231", factory := okFactory, traceStorage := "memstore" }
    (fun _ => none) rfl rfl rfl

/-! Claim C3. -/

/-- Claim C3: while the service is running, if the captured backend's purge
operation fails with error `e` then a `POST /purge` request is answered with
status 500 and a body containing `e`'s message. -/
theorem purge_failure_response (c : StorageCleaner) (srv : HTTPServer)
    (p : Unit → Option GoError) (e : GoError)
    (hs : c.server = some srv)
    (hp : srv.factory.purger = some p)
    (herr : p () = some e) :
    ∃ before after : String,
      serveRequest c { method := "POST", path := "/purge" } =
        (c, some { status := 500, body := (before ++ e.message) ++ after }) := by
  refine ⟨"error purging storage: ", "\n", ?_⟩
  simp [serveRequest, hs, route, URL, purgeHandler, purgeStorage, hp, herr,
    GoError.message]

/-- Claim C3, witness at a running cleaner whose purge fails with
`disk full`. -/
theorem purge_failure_response_witness :
    ∃ before after : String,
      serveRequest cleanerFail { method := "POST", path := "/purge" } =
        (cleanerFail,
         some { status := 500
              , body := (before ++ (GoError.base "disk full").message) ++ after }) :=
  purge_failure_response cleanerFail
    { addr := ":9231", factory := failFactory, traceStorage := "memstore" }
    (fun _ => some (.base "disk full")) (.base "disk full") rfl rfl rfl

/-! Claim C4. -/

/-- Claim C4: when the configured backend name is not in the host's
registry, `Start` returns the wrapped resolution error and returns the
receiver unchanged — in particular no listener handle is set beyond what was
there before, so a cleaner in the `Created` state stays there. -/
theorem start_resolution_failure (c : StorageCleaner) (host : Host)
    (hres : host.registry c.config.traceStorage = none) :
    ∃ e : GoError,
      Start c host =
        (c, some (.wrap ("cannot find storage factory '" ++
          c.config.traceStorage ++ "': ") e)) := by
  refine ⟨.base ("no storage extension registered for name " ++
    c.config.traceStorage), ?_⟩
  simp [Start, GetStorageFactory, hres]

/-- Claim C4, witness: a cleaner configured with an unregistered name. -/
theorem start_resolution_failure_witness :
    ∃ e : GoError,
      Start (newStorageCleaner { traceStorage := "nosuch", port := Port } 0) host0 =
        (newStorageCleaner { traceStorage := "nosuch", port := Port } 0,
         some (.wrap ("cannot find storage factory '" ++ "nosuch" ++ "': ") e)) :=
  start_resolution_failure
    (newStorageCleaner { traceStorage := "nosuch", port := Port } 0) host0 rfl

/-! Claim C5. -/

/-- Claim C5, counterexample: after a successful `Start` followed by a
successful `Shutdown`, the `server` field is still set — `Shutdown` never
clears it, refuting the claim that the handle is absent once stop has run. -/
theorem server_field_survives_shutdown :
    ((Shutdown (Start cleaner0 host1).1 none).1).server.isSome = true := by
  rfl

/-- Claim C5, amended: the `server` field is `none` after construction and
is left unchanged by a failed `start`; a successful `start` sets it; and
`stop` leaves it unchanged, so it remains set after stop completes rather
than becoming absent. -/
theorem server_field_lifecycle (cfg : Config) (ts : Nat)
    (c : StorageCleaner) (host : Host) (r : Option GoError) :
    (newStorageCleaner cfg ts).server = none ∧
    ((Start c host).2.isSome = true → (Start c host).1 = c) ∧
    ((Start c host).2 = none → ((Start c host).1).server.isSome = true) ∧
    (Shutdown c r).1 = c := by
  refine ⟨rfl, ?_, ?_, ?_⟩
  · intro h
    unfold Start at h ⊢
    cases hres : GetStorageFactory c.config.traceStorage host <;> simp [hres] at h ⊢
  · intro h
    unfold Start at h ⊢
    cases hres : GetStorageFactory c.config.traceStorage host <;> simp [hres] at h ⊢
  · unfold Shutdown
    cases c.server <;> cases r <;> rfl

/-- Claim C5, witness for the amended lifecycle at concrete states: a fresh
cleaner has no server, a successful start sets it, and shutdown leaves the
state unchanged. -/
theorem server_field_lifecycle_witness :
    (newStorageCleaner cfg0 0).server = none ∧
    ((Start cleaner0 host1).1).server.isSome = true ∧
    (Shutdown cleaner0 none).1 = cleaner0 :=
  ⟨(server_field_lifecycle cfg0 0 cleaner0 host1 none).1,
   (server_field_lifecycle cfg0 0 cleaner0 host1 none).2.2.1 rfl,
   (server_field_lifecycle cfg0 0 cleaner0 host1 none).2.2.2⟩

/-! Claim C6. -/

/-- Claim C6: the listener goroutine reports a fatal status event iff
`ListenAndServe` terminated with an error other than `http.ErrServerClosed`;
the intentional graceful close reports nothing; and, whenever resolution
succeeds, `Start` returns success, so a listener failure is never returned
to the caller of `start`. -/
theorem listener_fatal_report_iff (res : Option GoError)
    (c : StorageCleaner) (host : Host) (f : StorageFactory)
    (hres : host.registry c.config.traceStorage = some f) :
    ((listenerGoroutine res).isSome = true ↔
      ∃ err : GoError, res = some err ∧ err.is httpErrServerClosed = false) ∧
    listenerGoroutine (some httpErrServerClosed) = none ∧
    (Start c host).2 = none := by
  refine ⟨?_, rfl, by simp [Start, GetStorageFactory, hres]⟩
  cases res with
  | none => simp [listenerGoroutine]
  | some err =>
    by_cases h : err.is httpErrServerClosed = true
    · simp [listenerGoroutine, h]
    · simp only [Bool.not_eq_true] at h
      simp [listenerGoroutine, h]

/-- Claim C6, witness: a crash error is reported, the intentional close is
not, and `Start` at a resolvable configuration returns success. -/
theorem listener_fatal_report_iff_witness :
    (listenerGoroutine (some (GoError.base "listen tcp: bind failed"))).isSome = true ∧
    listenerGoroutine (some httpErrServerClosed) = none ∧
    (Start cleaner0 host1).2 = none :=
  ⟨(listener_fatal_report_iff (some (.base "listen tcp: bind failed"))
      cleaner0 host1 okFactory rfl).1.mpr
      ⟨.base "listen tcp: bind failed", rfl, rfl⟩,
   (listener_fatal_report_iff (some (.base "listen tcp: bind failed"))
      cleaner0 host1 okFactory rfl).2.1,
   (listener_fatal_report_iff (some (.base "listen tcp: bind failed"))
      cleaner0 host1 okFactory rfl).2.2⟩

/-! Claim C7. -/

/-- Claim C7: calling `Shutdown` when no listener handle is set — as before
any successful `start` — is a no-op returning no error, whatever the
environment would have answered for a real close. -/
theorem shutdown_noop_without_server (c : StorageCleaner) (r : Option GoError)
    (h : c.server = none) :
    Shutdown c r = (c, none) := by
  simp [Shutdown, h]

/-- Claim C7, witness: shutting down a freshly constructed cleaner is a
no-op even if the environment would have reported a close failure. -/
theorem shutdown_noop_without_server_witness :
    Shutdown cleaner0 (some (.base "context deadline exceeded")) = (cleaner0, none) :=
  shutdown_noop_without_server cleaner0 (some (.base "context deadline exceeded")) rfl

/-! Claim C8. -/

/-- Claim C8: with an active listener, if the underlying graceful close
fails with cause `e` then `Shutdown` returns an error wrapping `e`;
if the close completes cleanly, `Shutdown` returns no error. -/
theorem shutdown_with_server (c : StorageCleaner) (srv : HTTPServer)
    (h : c.server = some srv) :
    (∀ e : GoError,
      Shutdown c (some e) =
        (c, some (.wrap "error shutting down cleaner server: " e))) ∧
    Shutdown c none = (c, none) := by
  refine ⟨fun e => ?_, ?_⟩ <;> simp [Shutdown, h]

/-- Claim C8, witness at a running cleaner: a failed close surfaces the
wrapped cause, a clean close surfaces nothing. -/
theorem shutdown_with_server_witness :
    Shutdown cleanerOk (some (.base "context deadline exceeded")) =
      (cleanerOk,
       some (.wrap "error shutting down cleaner server: "
         (.base "context deadline exceeded"))) ∧
    Shutdown cleanerOk none = (cleanerOk, none) :=
  ⟨(shutdown_with_server cleanerOk
      { addr := ":9231", factory := okFactory, traceStorage := "memstore" } rfl).1
      (.base "context deadline exceeded"),
   (shutdown_with_server cleanerOk
      { addr := ":9231", factory := okFactory, traceStorage := "memstore" } rfl).2⟩

/-! Claim C9. -/

/-- Claim C9: handling any request while the service is running leaves the
service state — configuration, listener handle and status-reporter
reference — unchanged, whether the backend purge succeeds or fails. -/
theorem serve_preserves_state (c : StorageCleaner) (req : HTTPRequest)
    (h : c.server.isSome = true) :
    (serveRequest c req).1 = c := by
  unfold serveRequest
  cases hs : c.server <;> simp

/-- Claim C9, witness: a purge request against the failing backend leaves
the state unchanged. -/
theorem serve_preserves_state_witness :
    (serveRequest cleanerFail { method := "POST", path := "/purge" }).1 = cleanerFail :=
  serve_preserves_state cleanerFail { method := "POST", path := "/purge" } rfl

/-! Claim C10. -/

/-- Claim C10: when `Start` succeeds with a resolved factory lacking the
purge capability, every subsequent `POST /purge` request gets status 500
with the body stating that the storage does not implement the Purger
interface — the capability assertion in `purgeStorage` is evaluated on each
request, and with no `Purge` method present no purge operation can be
invoked. -/
theorem no_purger_every_request_500 (c : StorageCleaner) (host : Host)
    (f : StorageFactory)
    (hres : host.registry c.config.traceStorage = some f)
    (hnop : f.purger = none) :
    (Start c host).2 = none ∧
    ∀ req : HTTPRequest, req.method = "POST" → req.path = "/purge" →
      serveRequest (Start c host).1 req =
        ((Start c host).1,
         some { status := 500
              , body := ("storage " ++ c.config.traceStorage ++
                  " does not implement Purger interface") ++ "\n" }) := by
  constructor
  · simp [Start, GetStorageFactory, hres]
  · intro req hm hp
    simp [Start, GetStorageFactory, hres, serveRequest, route, URL, hm, hp,
      purgeHandler, purgeStorage, hnop, GoError.message]

/-- Claim C10, witness: at `cleaner0` started against `host0`, a concrete
purge request is answered 500 with the capability-error body. -/
theorem no_purger_every_request_500_witness :
    serveRequest (Start cleaner0 host0).1 { method := "POST", path := "/purge" } =
      ((Start cleaner0 host0).1,
       some { status := 500
            , body := ("storage " ++ cleaner0.config.traceStorage ++
                " does not implement Purger interface") ++ "\n" }) :=
  (no_purger_every_request_500 cleaner0 host0 noPurgeFactory rfl rfl).2
    { method := "POST", path := "/purge" } rfl rfl

end Storagecleaner
